import Mathlib

/-!
Verification of the bilibili user-dynamic normalization engine
(src/lib/routes/bilibili/dynamic.ts).

The per-entry normalization logic of the route handler is shallowly embedded
here.  JavaScript's weak typing is modelled explicitly where the source relies
on it: `JVal` captures the three JavaScript values that actually flow through
the string expressions of this handler (`undefined`, `NaN`, strings), with the
source's `||`, `&&` and `+` semantics.  JSON payload fields are modelled as
`Option`-valued record fields (`none` = field absent / `undefined`).
`JSONbig.parse` of the `card` and nested `origin` strings is modelled by its
outcome (`Except`): a malformed JSON string is represented by `Except.error`.
External collaborators that are not under src/ (the article full-text fetch,
the batch author identity, `utils.iframe`, `parseDate`) are modelled from the
spec as noted on their definitions.
-/

set_option maxRecDepth 4096

namespace BiliDyn

/-- JavaScript value fragment: the values that flow through the handler's
string expressions are `undefined`, the number `NaN` (arising only from
`undefined + undefined`), and strings. -/
inductive JVal where
  | undefined
  | nan
  | str (s : String)
deriving DecidableEq, Repr

/-- JavaScript string conversion, as performed by template-literal
interpolation and by `+` when one operand is a string. -/
def JVal.toDisp : JVal → String
  | .undefined => "undefined"
  | .nan => "NaN"
  | .str s => s

/-- JavaScript truthiness on the modelled values: `undefined` and `NaN` are
falsy, a string is truthy iff nonempty. -/
def JVal.truthy : JVal → Bool
  | .undefined => false
  | .nan => false
  | .str s => s != ""

/-- JavaScript `a || b` on the modelled values. -/
def JVal.jor (a b : JVal) : JVal := if a.truthy then a else b

/-- JavaScript `a && b` on the modelled values. -/
def JVal.jand (a b : JVal) : JVal := if a.truthy then b else a

/-- JavaScript `a + b` on the modelled values: if either operand is a string
the result is string concatenation after `toDisp` conversion; otherwise
(`undefined`/`NaN` operands) the numeric result is `NaN`. -/
def JVal.jadd (a b : JVal) : JVal :=
  match a, b with
  | .str s, _ => .str (s ++ b.toDisp)
  | _, .str t => .str (a.toDisp ++ t)
  | _, _ => .nan

/-- An optional JSON string field seen as a JavaScript value. -/
def jv : Option String → JVal
  | none => .undefined
  | some s => .str s

/-- An optional JSON numeric field seen as a JavaScript value (interpolation
prints its decimal digits; an absent field prints "undefined"). -/
def jvN : Option Nat → JVal
  | none => .undefined
  | some n => .str (toString n)

/-- String-field truthiness: present and nonempty. -/
def optTruthy : Option String → Bool
  | some s => s != ""
  | none => false

/-! ## Data model of the raw payloads (fields the handler reads) -/

/-- `vest` sub-record (campaign posts). -/
structure Vest where
  content : Option String
deriving DecidableEq, Repr

/-- `sketch` sub-record (campaign posts). -/
structure Sketch where
  title : Option String
  desc_text : Option String
  cover_url : Option String
  target_url : Option String
deriving DecidableEq, Repr

/-- A sub-record carrying a `name` field (`author`, `upper`, `owner`). -/
structure Named where
  name : Option String
deriving DecidableEq, Repr

/-- `user` sub-record (`uname` / `name`). -/
structure UserRec where
  uname : Option String
  name : Option String
deriving DecidableEq, Repr

/-- `apiSeasonInfo` sub-record (episodic-media posts). -/
structure SeasonRec where
  title : Option String
deriving DecidableEq, Repr

/-- One element of the `pictures` array. -/
structure PicRec where
  img_src : Option String
deriving DecidableEq, Repr

/-- The `cover` field is either a bare URL string or a wrapper object with an
optional `unclipped` variant. -/
inductive CoverVal where
  | strv (s : String)
  | obj (unclipped : Option String)
deriving DecidableEq, Repr

/-- The scalar and sub-record fields of a parsed card payload that the
handler reads.  An absent JSON field is `none`. -/
structure PayloadCore where
  title : Option String := none
  description : Option String := none
  content : Option String := none
  dynamic : Option String := none
  desc : Option String := none
  summary : Option String := none
  intro : Option String := none
  vest : Option Vest := none
  sketch : Option Sketch := none
  uname : Option String := none
  author : Option Named := none
  upper : Option Named := none
  owner : Option Named := none
  user : Option UserRec := none
  apiSeasonInfo : Option SeasonRec := none
  index_title : Option String := none
  aid : Option Nat := none
  id : Option Nat := none
  pictures : Option (List PicRec) := none
  image_urls : Option (List String) := none
  pic : Option String := none
  cover : Option CoverVal := none
  video_playurl : Option String := none
  width : Option Nat := none
  height : Option Nat := none
  dynamic_id : Option Nat := none
  roomid : Option Nat := none
  url : Option String := none
deriving DecidableEq, Repr

/-- The parsed `origin` payload.  The handler reads the origin's own fields
and its nested `item`; it never parses an origin-of-origin, so that field is
omitted. -/
structure OriginPayload where
  core : PayloadCore
  item : Option PayloadCore := none
deriving DecidableEq, Repr

/-- A parsed card payload: its own fields, the nested `item` sub-payload, and
the serialized `origin` string.  `origin` is modelled by the outcome of
`JSONbig.parse` on it: `none` when the field is absent (or the empty, falsy
string), `some (.error _)` when the string does not parse, `some (.ok q)`
when it parses to `q`. -/
structure Payload where
  core : PayloadCore
  item : Option PayloadCore := none
  origin : Option (Except String OriginPayload) := none
deriving Repr

/-- Envelope-level `desc` record of a raw feed entry.  `origin_bvid` models
`desc.origin?.bvid` (absent wrapper or absent field both give `undefined`). -/
structure FeedDesc where
  dynamic_id : Option Nat := none
  timestamp : Option Nat := none
  bvid : Option String := none
  origin_bvid : Option String := none
deriving DecidableEq, Repr

/-- One element of `display.emoji_info.emoji_details`. -/
structure EmojiDetail where
  text : String
  url : String
deriving DecidableEq, Repr

/-- `display.emoji_info` record. -/
structure EmojiInfo where
  emoji_details : Option (List EmojiDetail) := none
deriving DecidableEq, Repr

/-- `display` record of a raw feed entry. -/
structure DisplayRec where
  emoji_info : Option EmojiInfo := none
deriving DecidableEq, Repr

/-- One raw feed entry (`item` in the handler's `cards.map` callback): the
serialized `card` (modelled by its parse outcome), the envelope `desc`, and
the `display` record (whose absence the handler does not guard against). -/
structure Entry where
  card : Except String Payload
  desc : Option FeedDesc := none
  display : Option DisplayRec := none
deriving Repr

/-- The per-request boolean options (all default `false`). `displayArticle`
is the `mode=fulltext` flag. -/
structure Options where
  showEmoji : Bool := false
  disableEmbed : Bool := false
  displayArticle : Bool := false
  useAvid : Bool := false
  directLink : Bool := false
deriving DecidableEq, Repr

/-- External collaborators, resolved per batch.  `author` models the batch
author identity (resolved from the cache or the first card, lines 133-136).
`articleDesc` models the spec's `fetchFullArticleText(articleId, ownerId)`
collaborator (`cacheIn.getArticleDataFromCvid`, whose code is not under
src/): it returns the fetched record's optional `description` field, or a
rejection. -/
structure Env where
  author : Option String
  articleDesc : Option Nat → Except String (Option String)

/-- The uniform output record for one feed entry.  `pubDate` models
`parseDate(timestamp, 'X')` by the epoch seconds themselves (the date parser
is an external collaborator); `link` is a JavaScript value because the
handler can assign `undefined` to the `link` variable. -/
structure NormalizedItem where
  title : String
  description : String
  pubDate : Option Nat
  link : JVal
  author : Option String
deriving DecidableEq, Repr

/-- `Except.isOk` as a plain definition. -/
def okB {α : Type} : Except String α → Bool
  | .ok _ => true
  | .error _ => false

/-! ## Field extractors (lines 139-144 of the source) -/

/-- The `(data.vest && data.vest.content)` operand. -/
def vestVal (d : PayloadCore) : JVal :=
  match d.vest with
  | some v => jv v.content
  | none => .undefined

/-- The `(data.sketch && `<br>${data.sketch.title}<br>${data.sketch.desc_text}`)`
operand. -/
def sketchSuffix (d : PayloadCore) : JVal :=
  match d.sketch with
  | some sk => .str ("<br>" ++ (jv sk.title).toDisp ++ "<br>" ++ (jv sk.desc_text).toDisp)
  | none => .undefined

/-- `getTitle` on a non-null payload (line 139):
`data.title || data.description || data.content || (data.vest && data.vest.content) || ''`. -/
def getTitleC (d : PayloadCore) : String :=
  (((((jv d.title).jor (jv d.description)).jor (jv d.content)).jor (vestVal d)).jor
    (.str "")).toDisp

/-- `getTitle` (line 139) on a possibly-undefined payload:
`data ? ... : ''`. -/
def getTitleOpt : Option PayloadCore → String
  | some d => getTitleC d
  | none => ""

/-- `getDes` (lines 140-141).  Note the source's `+` binds tighter than `||`,
so the sixth alternative is the JavaScript sum of the vest operand and the
sketch-suffix operand. -/
def getDes (d : PayloadCore) : String :=
  ((((((((jv d.dynamic).jor (jv d.desc)).jor (jv d.description)).jor (jv d.content)).jor
      (jv d.summary)).jor ((vestVal d).jadd (sketchSuffix d))).jor (jv d.intro)).jor
    (.str "")).toDisp

/-- `getOriginDes` (line 142) on the parsed origin (which may be null):
`(data && (data.apiSeasonInfo && data.apiSeasonInfo.title && tmplA) + (data.index_title && tmplB)) || ''`. -/
def getOriginDes (o : Option OriginPayload) : String :=
  match o with
  | none => ""
  | some q =>
    let a : JVal :=
      match q.core.apiSeasonInfo with
      | none => .undefined
      | some sr => (jv sr.title).jand (.str ("//转发自: " ++ (jv sr.title).toDisp))
    let b : JVal :=
      (jv q.core.index_title).jand (.str ("<br>" ++ (jv q.core.index_title).toDisp))
    ((a.jadd b).jor (.str "")).toDisp

/-- The `(data.author && data.author.name)`-style operands of `getOriginName`. -/
def namedVal : Option Named → JVal
  | some a => jv a.name
  | none => .undefined

/-- The `(data.user && (data.user.uname || data.user.name))` operand. -/
def userVal : Option UserRec → JVal
  | some u => (jv u.uname).jor (jv u.name)
  | none => .undefined

/-- `getOriginName` (line 143). -/
def getOriginName (d : PayloadCore) : String :=
  ((((((jv d.uname).jor (namedVal d.author)).jor (namedVal d.upper)).jor
      (userVal d.user)).jor (namedVal d.owner)).jor (.str "")).toDisp

/-- `getOriginTitle` (line 144): `data.title ? data.title + '<br>' : ''`. -/
def getOriginTitle (d : PayloadCore) : String :=
  match d.title with
  | some t => if t != "" then t ++ "<br>" else ""
  | none => ""

/-! ## Media resolver (lines 145-175, 193-196) -/

/-- Modelled from the spec: `utils.iframe` lives in the repository's
bilibili utils module, which is not under src/; §4.3 describes it as a
provider-specific inline embed snippet for the given video identifier. -/
def iframeSnippet (aid : Nat) : String :=
  "<iframe src=\"https://player.bilibili.com/player.html?aid=" ++ toString aid ++
    "\" frameborder=\"no\" scrolling=\"no\"></iframe>"

/-- `getIframe` (line 145):
`!disableEmbed && data && data.aid ? '<br><br>' + utils.iframe(data.aid) + '<br>' : ''`. -/
def getIframe (opts : Options) : Option PayloadCore → String
  | some d =>
    (match d.aid with
     | some n => if (!opts.disableEmbed) && n != 0 then "<br><br>" ++ iframeSnippet n ++ "<br>" else ""
     | none => "")
  | none => ""

/-- One `<img>` tag as emitted by `getImgs`. -/
def imgFor (s : String) : String := "<img src=\"" ++ s ++ "\">"

/-- `getImgs` (lines 146-175): pictures, article covers, video cover,
generic cover (preferring the `unclipped` wrapper variant), campaign cover,
concatenated in that order.  An object-valued cover falling through to the
bare-cover branch prints as "[object Object]". -/
def getImgs (d : PayloadCore) : String :=
  (match d.pictures with
   | some ps => String.join (ps.map (fun pr => imgFor (jv pr.img_src).toDisp))
   | none => "")
  ++ (match d.image_urls with
      | some us => String.join (us.map imgFor)
      | none => "")
  ++ (match d.pic with
      | some s => if s != "" then imgFor s else ""
      | none => "")
  ++ (match d.cover with
      | some (.obj u) =>
        (match u with
         | some uc => if uc != "" then imgFor uc else imgFor "[object Object]"
         | none => imgFor "[object Object]")
      | some (.strv s) => if s != "" then imgFor s else ""
      | none => "")
  ++ (match d.sketch with
      | some sk =>
        (match sk.cover_url with
         | some cu => if cu != "" then imgFor cu else ""
         | none => "")
      | none => "")

/-- JavaScript `unescape` (percent-decoding of `%XX` and `%uXXXX`), used on
`video_playurl`. -/
def hexVal (c : Char) : Option Nat :=
  let n := c.toNat
  if 48 ≤ n ∧ n ≤ 57 then some (n - 48)
  else if 65 ≤ n ∧ n ≤ 70 then some (n - 55)
  else if 97 ≤ n ∧ n ≤ 102 then some (n - 87)
  else none

/-- Character-list worker for `unescape`.  The fuel is at least the input
length plus one, and every step consumes at least one character, so the fuel
never runs out on the initial call. -/
def unescapeAux : Nat → List Char → List Char
  | 0, s => s
  | _ + 1, [] => []
  | n + 1, '%' :: rest =>
    (match rest with
     | 'u' :: a :: b :: c :: d :: rest2 =>
       (match hexVal a, hexVal b, hexVal c, hexVal d with
        | some w, some x, some y, some z =>
          Char.ofNat (((w * 16 + x) * 16 + y) * 16 + z) :: unescapeAux n rest2
        | _, _, _, _ => '%' :: unescapeAux n rest)
     | a :: b :: rest2 =>
       (match hexVal a, hexVal b with
        | some x, some y => Char.ofNat (x * 16 + y) :: unescapeAux n rest2
        | _, _ => '%' :: unescapeAux n rest)
     | _ => '%' :: unescapeAux n rest)
  | n + 1, c :: rest => c :: unescapeAux n rest

/-- JavaScript `unescape` on strings. -/
def unescapeStr (s : String) : String := ⟨unescapeAux (s.length + 1) s.data⟩

/-- `.replace(/^http:/, 'https:')`: force the scheme to https when the string
starts with `http:`. -/
def httpsForce (s : String) : String :=
  match s.data with
  | 'h' :: 't' :: 't' :: 'p' :: ':' :: rest => ⟨'h' :: 't' :: 't' :: 'p' :: 's' :: ':' :: rest⟩
  | _ => s

/-- The inline `<video>` fragment (lines 193-196): emitted whenever
`data.video_playurl` is truthy, sized by the declared width/height, with the
https-forced source first and the original source second. -/
def videoFragment (d : PayloadCore) : String :=
  match d.video_playurl with
  | some u =>
    if u != "" then
      "<video width=\"" ++ (jvN d.width).toDisp ++ "\" height=\"" ++ (jvN d.height).toDisp ++
        "\" controls><source src=\"" ++ httpsForce (unescapeStr u) ++ "\"><source src=\"" ++
        unescapeStr u ++ "\"></video>"
    else ""
  | none => ""

/-! ## Newline normalization (line 214) -/

/-- `.replaceAll('\r\n', '<br>')`: literal, non-overlapping, left-to-right. -/
def replaceCRLF : List Char → List Char
  | '\r' :: '\n' :: rest => '<' :: 'b' :: 'r' :: '>' :: replaceCRLF rest
  | c :: rest => c :: replaceCRLF rest
  | [] => []

/-- `.replaceAll('\n', '<br>')`. -/
def replaceLF : List Char → List Char
  | '\n' :: rest => '<' :: 'b' :: 'r' :: '>' :: replaceLF rest
  | c :: rest => c :: replaceLF rest
  | [] => []

/-- Line 214: CRLF first, then bare LF, both to `<br>`. -/
def replaceNewlines (s : String) : String := ⟨replaceLF (replaceCRLF s.data)⟩

/-! ## Emoji substitution (lines 215-223)

The source builds, for each emoji token, the pattern string
`` `\\${item.text}`.replaceAll(/\\?/g, '\\?') `` and hands it to
`new RegExp(..., 'g')`.  The inner `replaceAll` matches an *optional*
backslash, i.e. it consumes each backslash and additionally matches the empty
string at every other position, inserting the two-character replacement
`\?` everywhere.  `escB` reproduces that exactly.  The resulting pattern is
an interleaving of `\?` escape pairs with the raw token characters, which we
interpret with a small regular-expression evaluator covering the constructs
such patterns can contain (escaped `?`, ordinary characters, and simple
bracket classes); patterns outside this subset make the model report an
error, standing for the cases the model does not evaluate. -/

/-- JavaScript `'\\' + text` then `.replaceAll(/\\?/g, '\\?')`: a backslash
is a one-character match replaced by `\?`; at every other position (including
the end) the empty match inserts `\?`. -/
def escB : List Char → List Char
  | [] => ['\\', '?']
  | '\\' :: rest => '\\' :: '?' :: escB rest
  | c :: rest => '\\' :: '?' :: c :: escB rest

/-- The pattern string the source passes to `new RegExp` for one token. -/
def buildPattern (text : String) : String := ⟨escB ('\\' :: text.data)⟩

/-- One unit of the interpreted pattern: a literal character or a simple
bracket class. -/
inductive RUnit where
  | lit (c : Char)
  | cls (cs : List Char)
deriving DecidableEq, Repr

/-- Does a pattern unit match one character? -/
def RUnit.mch : RUnit → Char → Bool
  | .lit c, d => c == d
  | .cls cs, d => cs.contains d

/-- Characters that are regex metacharacters outside a class; a raw token
character equal to one of these puts the pattern outside the modelled
subset. -/
def specialChar (c : Char) : Bool :=
  [']', '^', '$', '.', '|', '?', '*', '+', '(', ')', '{', '}'].contains c

/-- Parse the body of a bracket class up to the closing `]`, returning the
class characters and the remainder. -/
def parseCls : List Char → Option (List Char × List Char)
  | [] => none
  | ']' :: rest => some ([], rest)
  | '\\' :: '?' :: rest => (parseCls rest).map (fun pr => ('?' :: pr.1, pr.2))
  | '\\' :: _ => none
  | c :: rest =>
    if c == '^' || c == '-' || c == '[' then none
    else (parseCls rest).map (fun pr => (c :: pr.1, pr.2))

/-- Parse a whole pattern string into units (fuel-driven; the fuel is the
pattern length plus one and every step consumes at least one character). -/
def parseUnitsAux : Nat → List Char → Option (List RUnit)
  | 0, _ => none
  | _ + 1, [] => some []
  | n + 1, '\\' :: '?' :: rest => (parseUnitsAux n rest).map (fun us => RUnit.lit '?' :: us)
  | _ + 1, '\\' :: _ => none
  | n + 1, '[' :: rest =>
    (match parseCls rest with
     | some (cs, r) => (parseUnitsAux n r).map (fun us => RUnit.cls cs :: us)
     | none => none)
  | n + 1, c :: rest =>
    if specialChar c then none else (parseUnitsAux n rest).map (fun us => RUnit.lit c :: us)

/-- Compile one emoji token to its interpreted pattern, exactly as the source
builds it.  `none` models a pattern the evaluator does not cover (for
instance one that `new RegExp` would reject). -/
def compilePat (text : String) : Option (List RUnit) :=
  parseUnitsAux ((buildPattern text).length + 1) (buildPattern text).data

/-- Match the units against a prefix of the input, returning the remainder. -/
def matchUnits : List RUnit → List Char → Option (List Char)
  | [], rest => some rest
  | _ :: _, [] => none
  | u :: us, c :: rest => if u.mch c then matchUnits us rest else none

/-- Global regex replacement: scan left to right, replacing each
non-overlapping match (the compiled patterns are nonempty, so every match
consumes at least one character).  Fuel-driven with fuel the input length
plus one. -/
def rraAux : Nat → List RUnit → List Char → List Char → List Char
  | 0, _, _, s => s
  | _ + 1, _, _, [] => []
  | n + 1, us, repl, c :: rest =>
    (match matchUnits us (c :: rest) with
     | some rest2 => repl ++ rraAux n us repl rest2
     | none => c :: rraAux n us repl rest)

/-- `.replaceAll(regex, replacement)` for an interpreted pattern. -/
def regexReplaceAll (us : List RUnit) (repl : String) (s : String) : String :=
  ⟨rraAux (s.length + 1) us repl.data s.data⟩

/-- The replacement `<img>` tag (line 220), byte-for-byte as in the source
(including the missing space before `style`). -/
def imgTag (text url : String) : String :=
  "<img alt=\"" ++ text ++ "\" src=\"" ++ url ++
    "\"style=\"margin: -1px 1px 0px; display: inline-block; width: 20px; height: 20px; vertical-align: text-bottom;\" title=\"\" referrerpolicy=\"no-referrer\">"

/-- The emoji loop (lines 217-222): fold the replacements over the details
in declaration order; a token whose pattern the model cannot evaluate yields
an error (standing for a `RegExp` the model does not cover). -/
def applyEmoji : List EmojiDetail → String → Except String String
  | [], t => .ok t
  | dtl :: ds, t =>
    (match compilePat dtl.text with
     | none => .error "SyntaxError: unsupported RegExp"
     | some us => applyEmoji ds (regexReplaceAll us (imgTag dtl.text dtl.url) t))

/-- Lines 215-223.  The source reads `item.display.emoji_info` without a
guard, so an entry lacking `display` throws a TypeError here regardless of
`showEmoji`; likewise an `emoji_info` without `emoji_details` throws in the
`for...of`. -/
def emojiStage (opts : Options) (e : Entry) (content : String) : Except String String :=
  match e.display with
  | none => .error "TypeError: Cannot read properties of undefined (reading emoji_info)"
  | some disp =>
    match disp.emoji_info with
    | some info =>
      if opts.showEmoji then
        match info.emoji_details with
        | none => .error "TypeError: emoji is not iterable"
        | some ds => applyEmoji ds content
      else .ok content
    | none => .ok content

/-! ## Link resolver (lines 203-209, 224-261) -/

/-- `data.aid` truthiness (a number field: truthy iff present and nonzero). -/
def sigAid (d : PayloadCore) : Bool :=
  match d.aid with
  | some n => n != 0
  | none => false

/-- `data.roomid` truthiness. -/
def sigRoom (d : PayloadCore) : Bool :=
  match d.roomid with
  | some n => n != 0
  | none => false

/-- `data.url` truthiness. -/
def sigUrl (d : PayloadCore) : Bool := optTruthy d.url

/-- Result of one `getUrl` call: the anchor fragment appended to the
description, and — when a branch matched — the value the branch assigns to
`link` under `directLink` (a JavaScript value: the sketch branch can assign
`undefined`). -/
structure UrlRes where
  frag : String
  matched : Option JVal
deriving DecidableEq, Repr

/-- One labelled anchor line, `<br>{label}：<a href={url}>{url}</a>`. -/
def anchor (label url : String) : String :=
  "<br>" ++ label ++ "：<a href=" ++ url ++ ">" ++ url ++ "</a>"

/-- The video branch's URL (lines 229-233): `av{aid}` under `useAvid`, else
the envelope's `desc.bvid || desc.origin?.bvid`. -/
def vidUrl (opts : Options) (ed : Option FeedDesc) (d : PayloadCore) : String :=
  "https://www.bilibili.com/video/" ++
    (if opts.useAvid then JVal.str ("av" ++ (jvN d.aid).toDisp)
     else (jv (ed.bind FeedDesc.bvid)).jor (jv (ed.bind FeedDesc.origin_bvid))).toDisp

/-- The article branch's URL (line 236). -/
def artUrl (d : PayloadCore) : String :=
  "https://www.bilibili.com/read/cv" ++ (jvN d.id).toDisp

/-- The audio branch's URL (line 241). -/
def audUrl (d : PayloadCore) : String :=
  "https://www.bilibili.com/audio/au" ++ (jvN d.id).toDisp

/-- The livestream branch's URL (line 246). -/
def roomUrl (d : PayloadCore) : String :=
  "https://live.bilibili.com/" ++ (jvN d.roomid).toDisp

/-- The campaign branch's URL (line 251): `sketch.target_url` verbatim — a
JavaScript value, since the field may be absent. -/
def sketchUrlJ (d : PayloadCore) : JVal := jv (d.sketch.bind Sketch.target_url)

/-- `getUrl` (lines 224-261): first-match-wins over aid, image_urls, upper,
roomid, sketch, url; null payload and no-signal payloads yield the empty
fragment. -/
def getUrl (opts : Options) (ed : Option FeedDesc) : Option PayloadCore → UrlRes
  | none => ⟨"", none⟩
  | some d =>
    if sigAid d then
      ⟨anchor "视频地址" (vidUrl opts ed d), some (.str (vidUrl opts ed d))⟩
    else if d.image_urls.isSome then
      ⟨anchor "专栏地址" (artUrl d), some (.str (artUrl d))⟩
    else if d.upper.isSome then
      ⟨anchor "音频地址" (audUrl d), some (.str (audUrl d))⟩
    else if sigRoom d then
      ⟨anchor "直播间地址" (roomUrl d), some (.str (roomUrl d))⟩
    else if d.sketch.isSome then
      ⟨anchor "活动地址" (sketchUrlJ d).toDisp, some (sketchUrlJ d)⟩
    else if sigUrl d then
      ⟨anchor "地址" (jv d.url).toDisp, some (.str (jv d.url).toDisp)⟩
    else ⟨"", none⟩

/-- The `else if (item.desc?.dynamic_id)` fallback of lines 203-209; the
`link` variable starts as the empty string. -/
def initialLinkDesc (e : Entry) : JVal :=
  match e.desc with
  | some fd =>
    (match fd.dynamic_id with
     | some m => if m != 0 then .str ("https://t.bilibili.com/" ++ toString m) else .str ""
     | none => .str "")
  | none => .str ""

/-- Lines 203-209: the dynamic-id-derived permalink, from the payload's
`dynamic_id`, else the envelope's `desc.dynamic_id`, else the empty string. -/
def initialLink (e : Entry) (d : PayloadCore) : JVal :=
  match d.dynamic_id with
  | some n => if n != 0 then .str ("https://t.bilibili.com/" ++ toString n) else initialLinkDesc e
  | none => initialLinkDesc e

/-- The final value of the mutable `link` variable: under `directLink` the
main post's matched branch assigns first, then the origin's matched branch
overwrites (the description template evaluates `getUrl(data)` before
`getUrl(origin)`, and the `link` property is read after the description). -/
def finalLink (opts : Options) (e : Entry) (d : PayloadCore) (oc : Option PayloadCore) : JVal :=
  let l0 := initialLink e d
  let l1 :=
    if opts.directLink then
      match (getUrl opts e.desc (some d)).matched with
      | some u => u
      | none => l0
    else l0
  if opts.directLink then
    match (getUrl opts e.desc oc).matched with
    | some u => u
    | none => l1
  else l1

/-! ## Per-entry normalization (lines 177-280) -/

/-- Line 181: run the extractors on the nested `item` sub-payload exactly
when `getTitle(parsed.item)` is truthy, else on the top-level payload. -/
def selectData (p : Payload) : PayloadCore :=
  match p.item with
  | some sub => if getTitleC sub != "" then sub else p.core
  | none => p.core

/-- Line 182: `parsed.origin ? JSONbig.parse(parsed.origin) : null`.  An
unparseable origin string throws, rejecting this entry. -/
def originResolve (p : Payload) : Except String (Option OriginPayload) :=
  match p.origin with
  | none => .ok none
  | some (.error err) => .error err
  | some (.ok q) => .ok (some q)

/-- The origin's payload record when it is present and parses; used to state
claims about successful runs. -/
def originCoreOf (p : Payload) : Option PayloadCore :=
  match p.origin with
  | some (.ok q) => some q.core
  | _ => none

/-- Lines 263-265: when the payload has `image_urls` and full-text mode is
on, the body is replaced by the fetched article record's `description` field
(possibly `undefined`); a rejected fetch rejects this entry. -/
def articleStage (opts : Options) (env : Env) (d : PayloadCore) (content : String) :
    Except String JVal :=
  if d.image_urls.isSome && opts.displayArticle then
    match env.articleDesc d.id with
    | .error err => .error err
    | .ok od => .ok (jv od)
  else .ok (.str content)

/-- The body text of one entry after newline normalization (line 214), emoji
substitution (lines 215-223), and the optional full-article override
(lines 263-265), in source order. -/
def bodyVal (opts : Options) (env : Env) (e : Entry) (d : PayloadCore) : Except String JVal :=
  match emojiStage opts e (replaceNewlines (getDes d)) with
  | .error err => .error err
  | .ok c1 => articleStage opts env d c1

/-- `data_content || getDes(data)` (line 270). -/
def descChoice (c : JVal) (d : PayloadCore) : String :=
  if c.truthy then c.toDisp else getDes d

/-- The origin's contribution to `imgHTML` (lines 189-191):
`getImgs(origin.item || origin)` when an origin is present. -/
def originImgsOf (o : Option OriginPayload) : String :=
  match o with
  | some q => getImgs (q.item.getD q.core)
  | none => ""

/-- The repost prefix (line 271):
`origin && getOriginName(origin) ? '<br><br>//转发自: @...' : getOriginDes(origin)`. -/
def originPartOf (o : Option OriginPayload) : String :=
  match o with
  | some q =>
    if getOriginName q.core != "" then
      "<br><br>//转发自: @" ++ getOriginName q.core ++ ": " ++
        getOriginTitle (q.item.getD q.core) ++ getDes (q.item.getD q.core)
    else getOriginDes (some q)
  | none => ""

/-- Lines 267-279: assemble the NormalizedItem from the selected payload, the
parsed origin, and the computed body value, concatenating the description in
the source's fixed order. -/
def assembleItem (opts : Options) (env : Env) (e : Entry) (d : PayloadCore)
    (o : Option OriginPayload) (c : JVal) : NormalizedItem :=
  let imgHTML := getImgs d ++ originImgsOf o
  let videoHTML := videoFragment d
  let oc := o.map OriginPayload.core
  let resD := getUrl opts e.desc (some d)
  let resO := getUrl opts e.desc oc
  let imgPart := if imgHTML != "" then "<br>" ++ imgHTML else ""
  let vidPart := if videoHTML != "" then "<br>" ++ videoHTML else ""
  { title := getTitleC d
    description := descChoice c d ++ originPartOf o ++ "<br>" ++ resD.frag ++ resO.frag ++
      getIframe opts (some d) ++ getIframe opts oc ++ imgPart ++ vidPart
    pubDate :=
      match e.desc with
      | some fd =>
        (match fd.timestamp with
         | some t => if t != 0 then some t else none
         | none => none)
      | none => none
    link := finalLink opts e d oc
    author := env.author }

/-- Per-entry normalization, the body of the `cards.map` callback
(lines 178-279): parse the card, select the working payload, parse the
origin, compute the body, and assemble the item.  Any throw surfaces as
`Except.error`. -/
def normalizeEntry (opts : Options) (env : Env) (e : Entry) : Except String NormalizedItem :=
  match e.card with
  | .error err => .error err
  | .ok p =>
    match originResolve p with
    | .error err => .error err
    | .ok o =>
      match bodyVal opts env e (selectData p) with
      | .error err => .error err
      | .ok cv => .ok (assembleItem opts env e (selectData p) o cv)

/-- `Promise.all(cards.map(...))` (line 177): the batch resolves to the list
of items, or rejects as soon as any entry rejects. -/
def processBatch (opts : Options) (env : Env) : List Entry → Except String (List NormalizedItem)
  | [] => .ok []
  | e :: es =>
    match normalizeEntry opts env e with
    | .error err => .error err
    | .ok it =>
      match processBatch opts env es with
      | .error err => .error err
      | .ok its => .ok (it :: its)

/-- The description of a successful run (empty string on error). -/
def itemDesc : Except String NormalizedItem → String
  | .ok it => it.description
  | .error _ => ""

/-- The permalink of a successful run (`undefined` on error). -/
def itemLink : Except String NormalizedItem → JVal
  | .ok it => it.link
  | .error _ => .undefined

/-- The title of a successful run (empty string on error). -/
def itemTitle : Except String NormalizedItem → String
  | .ok it => it.title
  | .error _ => ""

/-! ## Substring search, used to state "the description contains ..." -/

/-- Does `pat` occur as a contiguous run in the list? -/
def occursInL (pat : List Char) : List Char → Bool
  | [] => pat.isEmpty
  | a :: as => pat.isPrefixOf (a :: as) || occursInL pat as

/-- Does `pat` occur as a substring of `s`? -/
def occursIn (pat s : String) : Bool := occursInL pat.data s.data

/-- Is the character absent from the string?  Used to bound where the repost
marker can come from. -/
def lacksChar (c : Char) (s : String) : Bool := decide (c ∉ s.data)

/-! ## Concrete inputs used by the claim witnesses and counterexamples -/

/-- All options off (every toggle defaults to false). -/
def opts0 : Options := {}

/-- A benign environment: author resolved, article fetch succeeds with no
description field. -/
def env0 : Env := ⟨some "tester", fun _ => .ok none⟩

/-- A payload with only a `sketch` (and an `intro`): the sixth alternative of
`getDes` evaluates `undefined + '<br>T<br>D'`. -/
def payloadSketchIntro : PayloadCore :=
  { sketch := some ⟨some "T", some "D", none, none⟩, intro := some "I" }

/-- The `[doge]` emoji table entry used to exhibit the bug. -/
def emojiDoge : EmojiDetail := ⟨"[doge]", "https://i0.hdslb.com/bfs/emote/doge.png"⟩

/-- A card whose body text carries a literal `[doge]` token. -/
def payloadDoge : Payload := { core := { dynamic := some "hello [doge] world" } }

/-- The entry carrying the `[doge]` emoji table. -/
def entryDoge : Entry :=
  { card := .ok payloadDoge,
    display := some { emoji_info := some { emoji_details := some [emojiDoge] } } }

/-- Options with emoji substitution enabled. -/
def optsEmoji : Options := { showEmoji := true }

/-- Does the card's `origin` string, when present, parse? -/
def originOkB (p : Payload) : Bool :=
  match p.origin with
  | some r => okB r
  | none => true

/-- Is the emoji stage free of throws for this entry: the `display` record
must be present (line 215 reads it unguarded), and when substitution will
run, the details list must be present and every token's pattern must be one
the model evaluates. -/
def emojiReady (opts : Options) (e : Entry) : Bool :=
  match e.display with
  | none => false
  | some disp =>
    match disp.emoji_info with
    | none => true
    | some info =>
      !opts.showEmoji ||
        (match info.emoji_details with
         | none => false
         | some ds => ds.all (fun dtl => (compilePat dtl.text).isSome))

/-- Is the article stage free of throws: either the full-text branch is not
taken, or the external fetch succeeds. -/
def articleReady (opts : Options) (env : Env) (d : PayloadCore) : Bool :=
  !(d.image_urls.isSome && opts.displayArticle) || okB (env.articleDesc d.id)

/-- A well-formed entry whose envelope lacks the `display` record. -/
def entryNoDisplay : Entry :=
  { card := .ok { core := { dynamic := some "hello" } } }

/-- A representative video-post entry (aid, cover, title, desc, dynamic_id)
with only optional-field absence elsewhere. -/
def payloadC1 : Payload :=
  { core := { title := some "t", desc := some "d", aid := some 170001,
              pic := some "https://i0.hdslb.com/cover.jpg", dynamic_id := some 99 } }

/-- The same video post wrapped in a complete envelope. -/
def entryC1 : Entry :=
  { card := .ok payloadC1, desc := some { dynamic_id := some 99, timestamp := some 1600000000 },
    display := some {} }

/-- A plain card with no origin. -/
def payloadGood : Payload := { core := { dynamic := some "ok post" } }

/-- An entry that normalizes fine on its own. -/
def entryGood : Entry := { card := .ok payloadGood, display := some {} }

/-- An entry whose nested `origin` payload does not parse. -/
def entryBadOrigin : Entry :=
  { card := .ok { core := { dynamic := some "repost" },
                  origin := some (.error "SyntaxError: Unexpected token in JSON") },
    display := some {} }

/-- An article-type entry (cover array and cvid present). -/
def entryArticle : Entry :=
  { card := .ok { core := { title := some "Art", summary := some "S",
                            image_urls := some ["https://i0.hdslb.com/c.jpg"],
                            id := some 123 } },
    display := some {} }

/-- An environment whose full-article fetch rejects. -/
def envFail : Env := ⟨some "tester", fun _ => .error "Error: fetch failed"⟩

/-- Options with full-text mode on. -/
def optsFull : Options := { displayArticle := true }

/-- A small-video card (raw `video_playurl` with an http scheme, declared
width/height). -/
def payloadVideo : Payload :=
  { core := { content := some "clip", video_playurl := some "http://upos.example/v.mp4",
              width := some 640, height := some 360 } }

/-- The small-video card wrapped in an envelope, normalized with
`disableEmbed` set. -/
def entryVideo : Entry := { card := .ok payloadVideo, display := some {} }

/-- Options with embedding disabled. -/
def optsNoEmbed : Options := { disableEmbed := true }

/-- An origin payload carrying a generic URL and an author `uname`. -/
def origin9 : OriginPayload :=
  { core := { url := some "https://example.com/orig", uname := some "bob" } }

/-- A card resolving a livestream URL whose origin resolves a generic URL;
the card also carries a `dynamic_id`. -/
def payloadC6 : Payload :=
  { core := { dynamic := some "hi", roomid := some 77, dynamic_id := some 501 },
    origin := some (.ok origin9) }

/-- The envelope around `payloadC6`. -/
def entryC6 : Entry := { card := .ok payloadC6, display := some {} }

/-- Options with `directLink` on. -/
def optsDirect : Options := { directLink := true }

/-- An origin payload exposing only a seasonal cross-reference. -/
def origin9b : OriginPayload :=
  { core := { apiSeasonInfo := some ⟨some "Fate Show"⟩, index_title := some "Ep1" } }

/-- A card reposting the seasonal origin. -/
def payload9b : Payload := { core := { content := some "share" }, origin := some (.ok origin9b) }

/-- The envelope around `payload9b`. -/
def entry9b : Entry := { card := .ok payload9b, display := some {} }

/-- A sub-payload carrying only pictures (all title slots absent). -/
def subPics : PayloadCore := { pictures := some [⟨some "https://i0.hdslb.com/1.jpg"⟩] }

/-- A card whose nested `item` has no title-slot fields. -/
def payload10 : Payload := { core := { dynamic := some "top body" }, item := some subPics }

/-- The envelope around `payload10`. -/
def entry10 : Entry := { card := .ok payload10, display := some {} }

/-- The same sub-payload with a truthy title. -/
def sub10b : PayloadCore := { subPics with title := some "Sub" }

/-- A card whose nested `item` has a truthy title. -/
def payload10b : Payload := { core := { dynamic := some "top body" }, item := some sub10b }

/-- The envelope around `payload10b`. -/
def entry10b : Entry := { card := .ok payload10b, display := some {} }

/-! ## Basic lemmas -/

theorem data_append (s t : String) : (s ++ t).data = s.data ++ t.data := rfl

theorem truthy_jv (o : Option String) : (jv o).truthy = optTruthy o := by
  cases o <;> rfl

theorem jor_pos (a b : JVal) (h : a.truthy = true) : a.jor b = a := by
  simp [JVal.jor, h]

theorem jor_neg (a b : JVal) (h : a.truthy = false) : a.jor b = b := by
  simp [JVal.jor, h]

theorem toDisp_jv_truthy (o : Option String) (h : optTruthy o = true) :
    (jv o).toDisp = o.getD "" := by
  cases o with
  | none => simp [optTruthy] at h
  | some s => rfl

theorem occ_append_right (pat xs ys : List Char) (h : occursInL pat ys = true) :
    occursInL pat (xs ++ ys) = true := by
  induction xs with
  | nil => simpa using h
  | cons a as ih => simp [occursInL, ih]

theorem ipo_append (l t : List Char) : l.isPrefixOf (l ++ t) = true := by
  induction l with
  | nil => simp [List.isPrefixOf]
  | cons a as ih => simp [List.isPrefixOf, ih]

theorem occ_here (pat ys : List Char) : occursInL pat (pat ++ ys) = true := by
  cases pat with
  | nil =>
    cases ys with
    | nil => rfl
    | cons b bs => simp [occursInL]
  | cons a as => simp [occursInL, ipo_append]

theorem occursIn_parts (a pat b : String) : occursIn pat (a ++ (pat ++ b)) = true := by
  unfold occursIn
  rw [data_append, data_append]
  exact occ_append_right _ _ _ (occ_here _ _)

theorem mem_of_ipo (l t : List Char) (c : Char) (h : l.isPrefixOf t = true) (hc : c ∈ l) :
    c ∈ t := by
  have hpre : l <+: t := by
    rwa [← List.isPrefixOf_iff_prefix]
  exact hpre.subset hc

theorem occ_false_of_missing (pat s : List Char) (c : Char) (hc : c ∈ pat) (hs : c ∉ s) :
    occursInL pat s = false := by
  induction s with
  | nil =>
    have : pat ≠ [] := by rintro rfl; simp at hc
    simp [occursInL, List.isEmpty, this]
    cases pat with
    | nil => simp at this
    | cons x xs => rfl
  | cons a as ih =>
    have h1 : pat.isPrefixOf (a :: as) = false := by
      by_contra hb
      have hb2 : pat.isPrefixOf (a :: as) = true := by
        cases h : pat.isPrefixOf (a :: as) with
        | true => rfl
        | false => exact absurd h hb
      exact hs (mem_of_ipo _ _ _ hb2 hc)
    have h2 : occursInL pat as = false := ih (fun hmem => hs (List.mem_cons_of_mem _ hmem))
    simp [occursInL, h1, h2]

theorem lacks_append (c : Char) (a b : String) (ha : lacksChar c a = true)
    (hb : lacksChar c b = true) : lacksChar c (a ++ b) = true := by
  simp only [lacksChar, decide_eq_true_eq, data_append, List.mem_append] at *
  rintro (h | h)
  · exact ha h
  · exact hb h

theorem occursIn_false_of_lacks (pat s : String) (c : Char) (hc : c ∈ pat.data)
    (hs : lacksChar c s = true) : occursIn pat s = false := by
  simp only [lacksChar, decide_eq_true_eq] at hs
  exact occ_false_of_missing _ _ _ hc hs

/-- Decompose a successful per-entry run into its stage results. -/
theorem normalize_ok_decomp (opts : Options) (env : Env) (e : Entry) (p : Payload)
    (h1 : e.card = .ok p) (h2 : okB (normalizeEntry opts env e) = true) :
    ∃ o cv, originResolve p = .ok o ∧ bodyVal opts env e (selectData p) = .ok cv ∧
      normalizeEntry opts env e = .ok (assembleItem opts env e (selectData p) o cv) := by
  have key : normalizeEntry opts env e =
      (match originResolve p with
       | .error err => .error err
       | .ok o =>
         match bodyVal opts env e (selectData p) with
         | .error err => .error err
         | .ok cv => .ok (assembleItem opts env e (selectData p) o cv)) := by
    unfold normalizeEntry
    rw [h1]
  cases ho : originResolve p with
  | error err =>
    have hne : normalizeEntry opts env e = .error err := by rw [key, ho]
    rw [hne] at h2
    simp [okB] at h2
  | ok o =>
    cases hb : bodyVal opts env e (selectData p) with
    | error err =>
      have hne : normalizeEntry opts env e = .error err := by rw [key, ho, hb]
      rw [hne] at h2
      simp [okB] at h2
    | ok cv =>
      exact ⟨o, cv, rfl, rfl, by rw [key, ho, hb]⟩

/-- Left factor nonempty, so the append is nonempty. -/
theorem append_ne_empty_left (a b : String) (h : a ≠ "") : a ++ b ≠ "" := by
  intro he
  apply h
  have hd := congrArg String.data he
  rw [data_append] at hd
  exact String.ext (List.append_eq_nil.mp hd).1

theorem occursIn_append_right (pat x y : String) (h : occursIn pat y = true) :
    occursIn pat (x ++ y) = true := by
  unfold occursIn at *
  rw [data_append]
  exact occ_append_right _ _ _ h

theorem ipo_extend (l t r : List Char) (h : l.isPrefixOf t = true) :
    l.isPrefixOf (t ++ r) = true := by
  rw [List.isPrefixOf_iff_prefix] at h ⊢
  exact h.trans (List.prefix_append t r)

theorem occ_append_left (pat xs ys : List Char) (h : occursInL pat xs = true) :
    occursInL pat (xs ++ ys) = true := by
  induction xs with
  | nil =>
    simp only [occursInL, List.isEmpty_iff] at h
    subst h
    cases ys with
    | nil => rfl
    | cons b bs => simp [occursInL, List.isPrefixOf]
  | cons a as ih =>
    simp only [occursInL, Bool.or_eq_true] at h ⊢
    rcases h with h | h
    · exact Or.inl (ipo_extend _ _ _ h)
    · exact Or.inr (ih h)

theorem occursIn_append_left (pat x y : String) (h : occursIn pat x = true) :
    occursIn pat (x ++ y) = true := by
  unfold occursIn at *
  rw [data_append]
  exact occ_append_left _ _ _ h

theorem occursIn_self (pat : String) : occursIn pat pat = true := by
  unfold occursIn
  have := occ_here pat.data []
  rwa [List.append_nil] at this

/-! ## Shared concrete inputs for the claim witnesses and counterexamples -/

/-! ## C8: title extraction priority -/

/-- C8: title extraction follows the priority
`title` → `description` → `content` → `vest.content` → `''`: a payload with a
truthy `title` yields `title` (whatever the other fields hold, in particular
when `description` is also set), and a payload with all four candidate slots
falsy yields the empty string. -/
theorem C8_title_priority (d : PayloadCore) :
    (optTruthy d.title = true → getTitleC d = d.title.getD "") ∧
    (optTruthy d.title = false → optTruthy d.description = false →
      optTruthy d.content = false → (vestVal d).truthy = false → getTitleC d = "") := by
  constructor
  · intro h
    have ht : (jv d.title).truthy = true := by rw [truthy_jv]; exact h
    unfold getTitleC
    rw [jor_pos _ _ ht, jor_pos _ _ ht, jor_pos _ _ ht, jor_pos _ _ ht]
    exact toDisp_jv_truthy _ h
  · intro h1 h2 h3 h4
    unfold getTitleC
    rw [jor_neg (jv d.title) _ (by rw [truthy_jv]; exact h1),
      jor_neg (jv d.description) _ (by rw [truthy_jv]; exact h2),
      jor_neg (jv d.content) _ (by rw [truthy_jv]; exact h3),
      jor_neg (vestVal d) _ h4]
    rfl

/-- Witness for C8 at concrete inputs: with both `title` and `description`
set the title wins; with no candidate fields the title is empty. -/
theorem C8_witness :
    getTitleC { title := some "T", description := some "D" } = "T" ∧
    getTitleC ({} : PayloadCore) = "" := by
  constructor
  · exact ((C8_title_priority { title := some "T", description := some "D" }).1 (by decide)).trans rfl
  · exact (C8_title_priority {}).2 rfl rfl rfl rfl

/-! ## C7: link-resolution dispatch order -/

/-- C7: `getUrl` dispatches first-match-wins in the fixed order video id,
article cover-array, audio uploader marker, livestream-room id, campaign
sketch, generic url.  A payload whose first matching signal is a given
branch yields exactly that branch's URL and labelled anchor line (hence a
payload exhibiting exactly one signal yields that branch, independent of all
other optional fields), and a payload with none of the six signals yields
the empty fragment. -/
theorem C7_dispatch_order (opts : Options) (ed : Option FeedDesc) (d : PayloadCore) :
    (sigAid d = true → getUrl opts ed (some d) =
      ⟨anchor "视频地址" (vidUrl opts ed d), some (.str (vidUrl opts ed d))⟩) ∧
    (sigAid d = false → d.image_urls.isSome = true → getUrl opts ed (some d) =
      ⟨anchor "专栏地址" (artUrl d), some (.str (artUrl d))⟩) ∧
    (sigAid d = false → d.image_urls.isSome = false → d.upper.isSome = true →
      getUrl opts ed (some d) = ⟨anchor "音频地址" (audUrl d), some (.str (audUrl d))⟩) ∧
    (sigAid d = false → d.image_urls.isSome = false → d.upper.isSome = false →
      sigRoom d = true →
      getUrl opts ed (some d) = ⟨anchor "直播间地址" (roomUrl d), some (.str (roomUrl d))⟩) ∧
    (sigAid d = false → d.image_urls.isSome = false → d.upper.isSome = false →
      sigRoom d = false → d.sketch.isSome = true →
      getUrl opts ed (some d) =
        ⟨anchor "活动地址" (sketchUrlJ d).toDisp, some (sketchUrlJ d)⟩) ∧
    (sigAid d = false → d.image_urls.isSome = false → d.upper.isSome = false →
      sigRoom d = false → d.sketch.isSome = false → sigUrl d = true →
      getUrl opts ed (some d) =
        ⟨anchor "地址" (jv d.url).toDisp, some (.str (jv d.url).toDisp)⟩) ∧
    (sigAid d = false → d.image_urls.isSome = false → d.upper.isSome = false →
      sigRoom d = false → d.sketch.isSome = false → sigUrl d = false →
      getUrl opts ed (some d) = ⟨"", none⟩) := by
  refine ⟨?_, ?_, ?_, ?_, ?_, ?_, ?_⟩ <;>
    · intros
      simp only [getUrl, *]
      simp

/-- Witness for C7 at concrete inputs: a livestream-only payload resolves
through the livestream branch; a payload with no signal yields the empty
fragment. -/
theorem C7_witness :
    getUrl opts0 none (some { roomid := some 77 }) =
      ⟨anchor "直播间地址" "https://live.bilibili.com/77",
        some (.str "https://live.bilibili.com/77")⟩ ∧
    getUrl opts0 none (some { dynamic := some "plain text post" }) = ⟨"", none⟩ := by
  constructor
  · exact (((((C7_dispatch_order opts0 none
      { roomid := some 77 }).2.2.2.1) rfl rfl rfl rfl)).trans (by rfl))
  · exact (C7_dispatch_order opts0 none { dynamic := some "plain text post" }).2.2.2.2.2.2
      rfl rfl rfl rfl rfl rfl

/-! ## C5: description extraction priority (corrected) -/

/-- Counterexample to C5 as stated: a payload with none of the first six
priority slots (no `vest.content`) but with `intro` set does not yield
`intro`; the `+` of the absent vest operand and the present sketch suffix
yields the truthy string "undefined<br>T<br>D", which wins over `intro`. -/
theorem C5_counterexample :
    getDes payloadSketchIntro = "undefined<br>T<br>D" ∧
    getDes payloadSketchIntro ≠ "I" := by
  exact ⟨rfl, by decide⟩

/-- C5 as amended: the first five slots and the final `intro` → `''`
fallbacks behave as claimed, but the sixth slot is the JavaScript sum of the
vest operand and the sketch suffix: it is skipped only when both operands
are absent (the sum is then `NaN`, falsy); when exactly one operand is
present the other contributes the text "undefined", and the slot wins
whenever the summed string is nonempty. -/
theorem C5_getdes_amended (d : PayloadCore) :
    (optTruthy d.dynamic = true → getDes d = d.dynamic.getD "") ∧
    (optTruthy d.dynamic = false → optTruthy d.desc = true → getDes d = d.desc.getD "") ∧
    (optTruthy d.dynamic = false → optTruthy d.desc = false →
      optTruthy d.description = true → getDes d = d.description.getD "") ∧
    (optTruthy d.dynamic = false → optTruthy d.desc = false →
      optTruthy d.description = false → optTruthy d.content = true →
      getDes d = d.content.getD "") ∧
    (optTruthy d.dynamic = false → optTruthy d.desc = false →
      optTruthy d.description = false → optTruthy d.content = false →
      optTruthy d.summary = true → getDes d = d.summary.getD "") ∧
    (optTruthy d.dynamic = false → optTruthy d.desc = false →
      optTruthy d.description = false → optTruthy d.content = false →
      optTruthy d.summary = false →
      ((vestVal d).jadd (sketchSuffix d)).truthy = true →
      getDes d = ((vestVal d).jadd (sketchSuffix d)).toDisp) ∧
    (optTruthy d.dynamic = false → optTruthy d.desc = false →
      optTruthy d.description = false → optTruthy d.content = false →
      optTruthy d.summary = false →
      ((vestVal d).jadd (sketchSuffix d)).truthy = false →
      optTruthy d.intro = true → getDes d = d.intro.getD "") ∧
    (optTruthy d.dynamic = false → optTruthy d.desc = false →
      optTruthy d.description = false → optTruthy d.content = false →
      optTruthy d.summary = false →
      ((vestVal d).jadd (sketchSuffix d)).truthy = false →
      optTruthy d.intro = false → getDes d = "") := by
  refine ⟨?_, ?_, ?_, ?_, ?_, ?_, ?_, ?_⟩
  · intro h1
    have ht : (jv d.dynamic).truthy = true := by rw [truthy_jv]; exact h1
    unfold getDes
    rw [jor_pos _ _ ht, jor_pos _ _ ht, jor_pos _ _ ht, jor_pos _ _ ht, jor_pos _ _ ht,
      jor_pos _ _ ht, jor_pos _ _ ht]
    exact toDisp_jv_truthy _ h1
  · intro h1 h2
    have ht : (jv d.desc).truthy = true := by rw [truthy_jv]; exact h2
    unfold getDes
    rw [jor_neg (jv d.dynamic) _ (by rw [truthy_jv]; exact h1),
      jor_pos _ _ ht, jor_pos _ _ ht, jor_pos _ _ ht, jor_pos _ _ ht, jor_pos _ _ ht,
      jor_pos _ _ ht]
    exact toDisp_jv_truthy _ h2
  · intro h1 h2 h3
    have ht : (jv d.description).truthy = true := by rw [truthy_jv]; exact h3
    unfold getDes
    rw [jor_neg (jv d.dynamic) _ (by rw [truthy_jv]; exact h1),
      jor_neg (jv d.desc) _ (by rw [truthy_jv]; exact h2),
      jor_pos _ _ ht, jor_pos _ _ ht, jor_pos _ _ ht, jor_pos _ _ ht, jor_pos _ _ ht]
    exact toDisp_jv_truthy _ h3
  · intro h1 h2 h3 h4
    have ht : (jv d.content).truthy = true := by rw [truthy_jv]; exact h4
    unfold getDes
    rw [jor_neg (jv d.dynamic) _ (by rw [truthy_jv]; exact h1),
      jor_neg (jv d.desc) _ (by rw [truthy_jv]; exact h2),
      jor_neg (jv d.description) _ (by rw [truthy_jv]; exact h3),
      jor_pos _ _ ht, jor_pos _ _ ht, jor_pos _ _ ht, jor_pos _ _ ht]
    exact toDisp_jv_truthy _ h4
  · intro h1 h2 h3 h4 h5
    have ht : (jv d.summary).truthy = true := by rw [truthy_jv]; exact h5
    unfold getDes
    rw [jor_neg (jv d.dynamic) _ (by rw [truthy_jv]; exact h1),
      jor_neg (jv d.desc) _ (by rw [truthy_jv]; exact h2),
      jor_neg (jv d.description) _ (by rw [truthy_jv]; exact h3),
      jor_neg (jv d.content) _ (by rw [truthy_jv]; exact h4),
      jor_pos _ _ ht, jor_pos _ _ ht, jor_pos _ _ ht]
    exact toDisp_jv_truthy _ h5
  · intro h1 h2 h3 h4 h5 h6
    unfold getDes
    rw [jor_neg (jv d.dynamic) _ (by rw [truthy_jv]; exact h1),
      jor_neg (jv d.desc) _ (by rw [truthy_jv]; exact h2),
      jor_neg (jv d.description) _ (by rw [truthy_jv]; exact h3),
      jor_neg (jv d.content) _ (by rw [truthy_jv]; exact h4),
      jor_neg (jv d.summary) _ (by rw [truthy_jv]; exact h5),
      jor_pos _ _ h6, jor_pos _ _ h6]
  · intro h1 h2 h3 h4 h5 h6 h7
    have ht : (jv d.intro).truthy = true := by rw [truthy_jv]; exact h7
    unfold getDes
    rw [jor_neg (jv d.dynamic) _ (by rw [truthy_jv]; exact h1),
      jor_neg (jv d.desc) _ (by rw [truthy_jv]; exact h2),
      jor_neg (jv d.description) _ (by rw [truthy_jv]; exact h3),
      jor_neg (jv d.content) _ (by rw [truthy_jv]; exact h4),
      jor_neg (jv d.summary) _ (by rw [truthy_jv]; exact h5),
      jor_neg _ _ h6, jor_pos _ _ ht]
    exact toDisp_jv_truthy _ h7
  · intro h1 h2 h3 h4 h5 h6 h7
    unfold getDes
    rw [jor_neg (jv d.dynamic) _ (by rw [truthy_jv]; exact h1),
      jor_neg (jv d.desc) _ (by rw [truthy_jv]; exact h2),
      jor_neg (jv d.description) _ (by rw [truthy_jv]; exact h3),
      jor_neg (jv d.content) _ (by rw [truthy_jv]; exact h4),
      jor_neg (jv d.summary) _ (by rw [truthy_jv]; exact h5),
      jor_neg _ _ h6,
      jor_neg (jv d.intro) _ (by rw [truthy_jv]; exact h7)]
    rfl

/-- Witness for C5 at concrete inputs: the `dynamic` slot wins when present;
a lone `vest.content` yields "Xundefined" through the sixth slot; a lone
`intro` is reached (both sixth-slot operands absent); an empty payload
yields the empty string. -/
theorem C5_witness :
    getDes { dynamic := some "DY" } = "DY" ∧
    getDes { vest := some ⟨some "X"⟩ } = "Xundefined" ∧
    getDes { intro := some "I" } = "I" ∧
    getDes ({} : PayloadCore) = "" := by
  refine ⟨?_, ?_, ?_, ?_⟩
  · exact ((C5_getdes_amended { dynamic := some "DY" }).1 rfl).trans rfl
  · exact ((C5_getdes_amended { vest := some ⟨some "X"⟩ }).2.2.2.2.2.1
      rfl rfl rfl rfl rfl rfl).trans rfl
  · exact ((C5_getdes_amended { intro := some "I" }).2.2.2.2.2.2.1
      rfl rfl rfl rfl rfl rfl rfl).trans rfl
  · exact (C5_getdes_amended {}).2.2.2.2.2.2.2 rfl rfl rfl rfl rfl rfl rfl

/-! ## C3: emoji substitution (code bug) -/

/-- C3, evaluated at the failing input: the pattern the source builds for the
token `[doge]` is `\?\?[\?d\?o\?g\?e\?]\?` (the escaping step
`.replaceAll(/\\?/g, '\\?')` matches an *optional* backslash, so it fires at
every position), which cannot match the token itself.  With `showEmoji`
enabled, the declared token is left unreplaced and no `<img>` tag is
produced — and text of the unrelated shape "??d?" *is* replaced. -/
theorem C3_emoji_substitution_bug :
    buildPattern "[doge]" = "\\?\\?[\\?d\\?o\\?g\\?e\\?]\\?" ∧
    applyEmoji [emojiDoge] "hello [doge] world" = .ok "hello [doge] world" ∧
    occursIn "<img" (itemDesc (normalizeEntry optsEmoji env0 entryDoge)) = false ∧
    occursIn "[doge]" (itemDesc (normalizeEntry optsEmoji env0 entryDoge)) = true ∧
    applyEmoji [emojiDoge] "a ??d? b" =
      .ok ("a " ++ imgTag emojiDoge.text emojiDoge.url ++ " b") := by
  exact ⟨rfl, rfl, rfl, rfl, rfl⟩

/-! ## C1: per-entry normalization never throws (corrected) -/

theorem applyEmoji_ok (ds : List EmojiDetail) :
    ∀ t, ds.all (fun dtl => (compilePat dtl.text).isSome) = true →
      okB (applyEmoji ds t) = true := by
  induction ds with
  | nil => intro t _; rfl
  | cons dtl ds ih =>
    intro t h
    simp only [List.all_cons, Bool.and_eq_true] at h
    obtain ⟨h1, h2⟩ := h
    unfold applyEmoji
    cases hc : compilePat dtl.text with
    | none => rw [hc] at h1; simp at h1
    | some us => exact ih _ h2

theorem emojiStage_ok (opts : Options) (e : Entry) (content : String)
    (h : emojiReady opts e = true) : okB (emojiStage opts e content) = true := by
  obtain ⟨card, desc, display⟩ := e
  cases display with
  | none => simp [emojiReady] at h
  | some disp =>
    obtain ⟨einfo⟩ := disp
    cases einfo with
    | none => rfl
    | some info =>
      obtain ⟨eds⟩ := info
      cases hs : opts.showEmoji with
      | false => simp [emojiStage, hs, okB]
      | true =>
        cases eds with
        | none => simp [emojiReady, hs] at h
        | some ds =>
          have hall : ds.all (fun dtl => (compilePat dtl.text).isSome) = true := by
            simpa [emojiReady, hs] using h
          simpa [emojiStage, hs] using applyEmoji_ok ds content hall

theorem articleStage_ok (opts : Options) (env : Env) (d : PayloadCore) (content : String)
    (h : articleReady opts env d = true) : okB (articleStage opts env d content) = true := by
  unfold articleReady at h
  unfold articleStage
  cases hc : (d.image_urls.isSome && opts.displayArticle) with
  | false => simp [hc, okB]
  | true =>
    rw [hc] at h
    simp only [Bool.not_true, Bool.false_or] at h
    simp only [hc, if_true]
    cases he : env.articleDesc d.id with
    | error err => rw [he] at h; simp [okB] at h
    | ok od => simp [okB]

theorem originResolve_okB (p : Payload) (h : originOkB p = true) :
    okB (originResolve p) = true := by
  obtain ⟨core, item, origin⟩ := p
  cases origin with
  | none => rfl
  | some r =>
    cases r with
    | error err => simp [originOkB, okB] at h
    | ok q => rfl

/-- C1 as amended: for every entry whose optional payload fields may be
absent in any combination, per-entry normalization yields a NormalizedItem
without throwing *provided* the entry carries a `display` record (and the
emoji table, origin payload and full-text fetch do not themselves fail).
The unguarded `item.display.emoji_info` read makes the `display` hypothesis
necessary — see the counterexample. -/
theorem C1_no_throw_amended (opts : Options) (env : Env) (e : Entry) (p : Payload)
    (h1 : e.card = .ok p) (h2 : originOkB p = true) (h4 : emojiReady opts e = true)
    (h5 : articleReady opts env (selectData p) = true) :
    okB (normalizeEntry opts env e) = true := by
  have key : normalizeEntry opts env e =
      (match originResolve p with
       | .error err => .error err
       | .ok o =>
         match bodyVal opts env e (selectData p) with
         | .error err => .error err
         | .ok cv => .ok (assembleItem opts env e (selectData p) o cv)) := by
    unfold normalizeEntry
    rw [h1]
  rw [key]
  have hOk : okB (originResolve p) = true := originResolve_okB p h2
  cases ho : originResolve p with
  | error err => rw [ho] at hOk; simp [okB] at hOk
  | ok o =>
    have hbv : okB (bodyVal opts env e (selectData p)) = true := by
      unfold bodyVal
      cases hem : emojiStage opts e (replaceNewlines (getDes (selectData p))) with
      | error err =>
        have hse := emojiStage_ok opts e (replaceNewlines (getDes (selectData p))) h4
        rw [hem] at hse
        simp [okB] at hse
      | ok c1 => exact articleStage_ok opts env (selectData p) c1 h5
    cases hb : bodyVal opts env e (selectData p) with
    | error err => rw [hb] at hbv; simp [okB] at hbv
    | ok cv => rfl

/-- Counterexample to C1 as stated: an entry identical to a perfectly
normalizable one except for an absent `display` sub-record throws (the
unguarded `item.display.emoji_info` read at line 215), even though
`showEmoji` is off; adding an empty `display` record makes the same entry
normalize fine. -/
theorem C1_counterexample :
    okB (normalizeEntry opts0 env0 entryNoDisplay) = false ∧
    okB (normalizeEntry opts0 env0 { entryNoDisplay with display := some {} }) = true := by
  exact ⟨rfl, rfl⟩

/-- Witness for C1 (amended) at a concrete video-post entry. -/
theorem C1_witness : okB (normalizeEntry opts0 env0 entryC1) = true :=
  C1_no_throw_amended opts0 env0 entryC1 payloadC1 rfl rfl rfl rfl

/-! ## C2: per-entry failures abort the batch (corrected) -/

/-- C2 as amended: a per-entry failure always aborts the whole batch — the
batch result is an error whenever any of its entries fails to normalize
(there is no per-entry degradation). -/
theorem C2_batch_aborts (opts : Options) (env : Env) (es : List Entry) (e : Entry)
    (h1 : e ∈ es) (h2 : okB (normalizeEntry opts env e) = false) :
    okB (processBatch opts env es) = false := by
  induction es with
  | nil => simp at h1
  | cons a as ih =>
    rcases List.mem_cons.mp h1 with rfl | hmem
    · unfold processBatch
      cases hn : normalizeEntry opts env e with
      | error err => rfl
      | ok it => rw [hn] at h2; simp [okB] at h2
    · unfold processBatch
      cases hn : normalizeEntry opts env a with
      | error err => rfl
      | ok it =>
        cases hp : processBatch opts env as with
        | error err => rfl
        | ok its =>
          have hfail := ih hmem
          rw [hp] at hfail
          simp [okB] at hfail

/-- Counterexample to C2 as stated: one entry with an unparseable origin
rejects the whole batch, so the other (individually fine) entry is not
produced; and a failed full-article fetch for one article-type entry
likewise rejects the whole batch instead of degrading that entry to its
non-full-text description. -/
theorem C2_counterexample :
    okB (normalizeEntry opts0 env0 entryGood) = true ∧
    okB (processBatch opts0 env0 [entryGood, entryBadOrigin]) = false ∧
    okB (normalizeEntry optsFull env0 entryArticle) = true ∧
    okB (processBatch optsFull envFail [entryGood, entryArticle]) = false := by
  exact ⟨rfl, rfl, rfl, rfl⟩

/-- Witness for C2 (amended) at a concrete two-entry batch. -/
theorem C2_witness : okB (processBatch opts0 env0 [entryGood, entryBadOrigin]) = false :=
  C2_batch_aborts opts0 env0 [entryGood, entryBadOrigin] entryBadOrigin
    (List.mem_cons_of_mem _ (List.mem_cons_self _ _)) rfl

/-! ## C4: inline video fragment (corrected) -/

theorem videoFragment_ne (d : PayloadCore) (h : optTruthy d.video_playurl = true) :
    (videoFragment d != "") = true := by
  unfold videoFragment
  split
  next u heq =>
    rw [heq] at h
    simp only [optTruthy] at h
    rw [if_pos h, bne_iff_ne]
    intro heq2
    have hd := congrArg String.data heq2
    simp only [data_append, List.append_eq_nil] at hd
    simp at hd
  next heq =>
    rw [heq] at h
    simp [optTruthy] at h

/-- Counterexample to C4 as stated: with `disableEmbed` set and a raw
video-stream URL present, the description still contains the `<video>`
element (the source gates only the iframe embed, not the `<video>` block,
on `disableEmbed`), with the https-forced source first and the original
http source second. -/
theorem C4_counterexample :
    occursIn "<video" (itemDesc (normalizeEntry optsNoEmbed env0 entryVideo)) = true ∧
    occursIn "<source src=\"https://upos.example/v.mp4\"><source src=\"http://upos.example/v.mp4\">"
      (itemDesc (normalizeEntry optsNoEmbed env0 entryVideo)) = true := by
  exact ⟨rfl, rfl⟩

/-- C4 as amended: for every successfully normalized entry, whenever the
selected payload's `video_playurl` is truthy the item description contains
the `<video>` fragment (sized by the declared width/height, first source
https-forced, second source original) — regardless of `disableEmbed`, which
is quantified arbitrarily here; when the field is absent or empty, the video
fragment is empty. -/
theorem C4_video_amended (opts : Options) (env : Env) (e : Entry) (p : Payload)
    (h1 : e.card = .ok p) (h2 : okB (normalizeEntry opts env e) = true) :
    (optTruthy (selectData p).video_playurl = true →
      occursIn (videoFragment (selectData p)) (itemDesc (normalizeEntry opts env e)) = true) ∧
    (optTruthy (selectData p).video_playurl = false → videoFragment (selectData p) = "") := by
  obtain ⟨o, cv, ho, hb, hn⟩ := normalize_ok_decomp opts env e p h1 h2
  constructor
  · intro hv
    rw [hn]
    simp only [itemDesc, assembleItem]
    rw [if_pos (videoFragment_ne (selectData p) hv)]
    exact occursIn_append_right _ _ _ (occursIn_append_right _ _ _ (occursIn_self _))
  · intro hv
    unfold videoFragment
    split
    next u heq =>
      rw [heq] at hv
      simp only [optTruthy] at hv
      rw [if_neg (by simp [hv])]
    next heq => rfl

/-- Witness for C4 (amended) at the concrete small-video entry, with
`disableEmbed` set. -/
theorem C4_witness :
    occursIn (videoFragment (selectData payloadVideo))
      (itemDesc (normalizeEntry optsNoEmbed env0 entryVideo)) = true :=
  (C4_video_amended optsNoEmbed env0 entryVideo payloadVideo rfl rfl).1 rfl

/-! ## C6: directLink permalink selection -/

theorem originCoreOf_eq (p : Payload) (o : Option OriginPayload)
    (ho : originResolve p = .ok o) : originCoreOf p = o.map OriginPayload.core := by
  obtain ⟨core, item, origin⟩ := p
  cases origin with
  | none =>
    have h2 : (Except.ok (none : Option OriginPayload) : Except String (Option OriginPayload)) =
        .ok o := ho
    cases Except.ok.inj h2
    rfl
  | some r =>
    cases r with
    | error err => simp [originResolve] at ho
    | ok q =>
      have h2 : (Except.ok (some q) : Except String (Option OriginPayload)) = .ok o := ho
      cases Except.ok.inj h2
      rfl

/-- C6: when `directLink` is false the item's permalink is the
dynamic-id-derived URL even when a content URL was resolved; when
`directLink` is true the permalink is the resolved content URL, the origin's
resolved URL winning over the main post's (the origin's assignment runs
second), falling back to the dynamic-id-derived URL when neither resolves. -/
theorem C6_direct_link (opts : Options) (env : Env) (e : Entry) (p : Payload)
    (h1 : e.card = .ok p) (h2 : okB (normalizeEntry opts env e) = true) :
    (opts.directLink = false →
      itemLink (normalizeEntry opts env e) = initialLink e (selectData p)) ∧
    (opts.directLink = true →
      itemLink (normalizeEntry opts env e) =
        (match (getUrl opts e.desc (originCoreOf p)).matched with
         | some u => u
         | none =>
           match (getUrl opts e.desc (some (selectData p))).matched with
           | some u => u
           | none => initialLink e (selectData p))) := by
  obtain ⟨o, cv, ho, hb, hn⟩ := normalize_ok_decomp opts env e p h1 h2
  have hoc : originCoreOf p = o.map OriginPayload.core := originCoreOf_eq p o ho
  rw [hn]
  constructor
  · intro hdl
    simp [itemLink, assembleItem, finalLink, hdl]
  · intro hdl
    rw [hoc]
    simp [itemLink, assembleItem, finalLink, hdl]

/-- Witness for C6 at a concrete repost entry where both the main post and
the origin resolve content URLs: under `directLink` the origin's URL wins;
without it the dynamic-id permalink survives. -/
theorem C6_witness :
    itemLink (normalizeEntry optsDirect env0 entryC6) = .str "https://example.com/orig" ∧
    itemLink (normalizeEntry opts0 env0 entryC6) = .str "https://t.bilibili.com/501" := by
  constructor
  · exact ((C6_direct_link optsDirect env0 entryC6 payloadC6 rfl rfl).2 rfl).trans rfl
  · exact ((C6_direct_link opts0 env0 entryC6 payloadC6 rfl rfl).1 rfl).trans rfl

/-! ## C9: repost prefix -/

/-- The description of an assembled item, as the source's fixed
concatenation. -/
theorem assemble_desc (opts : Options) (env : Env) (e : Entry) (d : PayloadCore)
    (o : Option OriginPayload) (c : JVal) :
    (assembleItem opts env e d o c).description =
      descChoice c d ++ originPartOf o ++ "<br>" ++ (getUrl opts e.desc (some d)).frag ++
        (getUrl opts e.desc (o.map OriginPayload.core)).frag ++ getIframe opts (some d) ++
        getIframe opts (o.map OriginPayload.core) ++
        (if (getImgs d ++ originImgsOf o) != "" then "<br>" ++ (getImgs d ++ originImgsOf o)
         else "") ++
        (if videoFragment d != "" then "<br>" ++ videoFragment d else "") := rfl

theorem lacks_ite (c : Char) (b : Prop) [Decidable b] (x y : String)
    (hx : lacksChar c x = true) (hy : lacksChar c y = true) :
    lacksChar c (if b then x else y) = true := by
  split
  · exact hx
  · exact hy

theorem truthy_str (s : String) : (JVal.str s).truthy = (s != "") := rfl

theorem jand_pos (a b : JVal) (h : a.truthy = true) : a.jand b = b := by
  simp [JVal.jand, h]

theorem jadd_str (s : String) (b : JVal) : (JVal.str s).jadd b = .str (s ++ b.toDisp) := by
  cases b <;> rfl

theorem toDisp_str (s : String) : (JVal.str s).toDisp = s := rfl

/-- Unfolding equation for `originPartOf` on a present origin. -/
theorem originPartOf_some (q : OriginPayload) :
    originPartOf (some q) =
      if getOriginName q.core != "" then
        "<br><br>//转发自: @" ++ getOriginName q.core ++ ": " ++
          getOriginTitle (q.item.getD q.core) ++ getDes (q.item.getD q.core)
      else getOriginDes (some q) := rfl

/-- Unfolding equation for `getOriginDes` on a present origin. -/
theorem getOriginDes_some (q : OriginPayload) :
    getOriginDes (some q) =
      (((match q.core.apiSeasonInfo with
         | none => JVal.undefined
         | some sr => (jv sr.title).jand (.str ("//转发自: " ++ (jv sr.title).toDisp))).jadd
        ((jv q.core.index_title).jand (.str ("<br>" ++ (jv q.core.index_title).toDisp)))).jor
        (.str "")).toDisp := rfl

/-- The seasonal form of `getOriginDes`: when the origin has an
`apiSeasonInfo` with a truthy title, the result starts with the
`//转发自: {seasonTitle}` marker (followed by the `index_title` operand's
JavaScript rendering). -/
theorem getOriginDes_season (q : OriginPayload) (sr : SeasonRec) (t : String)
    (hsi : q.core.apiSeasonInfo = some sr) (hst : sr.title = some t) (ht : t ≠ "") :
    getOriginDes (some q) =
      ("//转发自: " ++ t) ++
        ((jv q.core.index_title).jand (.str ("<br>" ++ (jv q.core.index_title).toDisp))).toDisp := by
  rw [getOriginDes_some, hsi]
  have e2 : (match some sr with
      | none => JVal.undefined
      | some sr2 => (jv sr2.title).jand (.str ("//转发自: " ++ (jv sr2.title).toDisp))) =
      (jv sr.title).jand (.str ("//转发自: " ++ (jv sr.title).toDisp)) := rfl
  rw [e2, hst, show jv (some t) = JVal.str t from rfl, toDisp_str,
    jand_pos _ _ (by simpa [JVal.truthy, bne_iff_ne] using ht), jadd_str]
  have hTr : (JVal.str (("//转发自: " ++ t) ++
      ((jv q.core.index_title).jand (.str ("<br>" ++ (jv q.core.index_title).toDisp))).toDisp)).truthy
      = true := by
    rw [truthy_str, bne_iff_ne]
    exact append_ne_empty_left _ _ (append_ne_empty_left _ _ (by decide))
  rw [jor_pos _ _ hTr, toDisp_str]

/-- C9: an entry whose origin parses and yields a non-empty origin-author
name carries the full `<br><br>//转发自: @{name}: {originTitle}{originDes}`
prefix in its description; an origin with no author name but a seasonal
cross-reference with truthy title contributes the shorter
`//转发自: {seasonTitle}` form; an entry with no origin — whose own pieces do
not contain the CJK character of the marker — never contains the
`//转发自: @` marker. -/
theorem C9_repost_marker (opts : Options) (env : Env) (e : Entry) (p : Payload)
    (h1 : e.card = .ok p) (h2 : okB (normalizeEntry opts env e) = true) :
    (∀ q, p.origin = some (.ok q) → getOriginName q.core ≠ "" →
      occursIn ("<br><br>//转发自: @" ++ getOriginName q.core ++ ": " ++
          getOriginTitle (q.item.getD q.core) ++ getDes (q.item.getD q.core))
        (itemDesc (normalizeEntry opts env e)) = true) ∧
    (∀ q sr t, p.origin = some (.ok q) → getOriginName q.core = "" →
      q.core.apiSeasonInfo = some sr → sr.title = some t → t ≠ "" →
      occursIn ("//转发自: " ++ t) (itemDesc (normalizeEntry opts env e)) = true) ∧
    (p.origin = none →
      ∀ cj, bodyVal opts env e (selectData p) = .ok cj →
      lacksChar '转' (descChoice cj (selectData p)) = true →
      lacksChar '转' (getUrl opts e.desc (some (selectData p))).frag = true →
      lacksChar '转' (getIframe opts (some (selectData p))) = true →
      lacksChar '转' (getImgs (selectData p)) = true →
      lacksChar '转' (videoFragment (selectData p)) = true →
      occursIn "//转发自: @" (itemDesc (normalizeEntry opts env e)) = false) := by
  obtain ⟨o, cv, ho, hb, hn⟩ := normalize_ok_decomp opts env e p h1 h2
  refine ⟨?_, ?_, ?_⟩
  · intro q hq hname
    have ho2 : originResolve p = .ok (some q) := by unfold originResolve; rw [hq]
    rw [ho2] at ho
    cases Except.ok.inj ho
    rw [hn]
    simp only [itemDesc]
    rw [assemble_desc]
    have hM : originPartOf (some q) =
        "<br><br>//转发自: @" ++ getOriginName q.core ++ ": " ++
          getOriginTitle (q.item.getD q.core) ++ getDes (q.item.getD q.core) := by
      rw [originPartOf_some, if_pos (by rwa [bne_iff_ne])]
    rw [hM]
    exact occursIn_append_left _ _ _ (occursIn_append_left _ _ _ (occursIn_append_left _ _ _
      (occursIn_append_left _ _ _ (occursIn_append_left _ _ _ (occursIn_append_left _ _ _
        (occursIn_append_left _ _ _ (occursIn_append_right _ _ _ (occursIn_self _))))))))
  · intro q sr t hq hname hsi hst ht
    have ho2 : originResolve p = .ok (some q) := by unfold originResolve; rw [hq]
    rw [ho2] at ho
    cases Except.ok.inj ho
    rw [hn]
    simp only [itemDesc]
    rw [assemble_desc]
    have hOP : originPartOf (some q) = getOriginDes (some q) := by
      rw [originPartOf_some, if_neg (by simp [hname])]
    rw [hOP, getOriginDes_season q sr t hsi hst ht]
    exact occursIn_append_left _ _ _ (occursIn_append_left _ _ _ (occursIn_append_left _ _ _
      (occursIn_append_left _ _ _ (occursIn_append_left _ _ _ (occursIn_append_left _ _ _
        (occursIn_append_left _ _ _ (occursIn_append_right _ _ _
          (occursIn_append_left _ _ _ (occursIn_self _)))))))))
  · intro hq cj hbj hl1 hl2 hl3 hl4 hl5
    have ho2 : originResolve p = .ok none := by unfold originResolve; rw [hq]
    rw [ho2] at ho
    cases Except.ok.inj ho
    rw [hbj] at hb
    cases Except.ok.inj hb
    rw [hn]
    simp only [itemDesc]
    rw [assemble_desc]
    refine occursIn_false_of_lacks _ _ '转' (by decide) ?_
    apply lacks_append
    · apply lacks_append
      · apply lacks_append
        · apply lacks_append
          · apply lacks_append
            · apply lacks_append
              · apply lacks_append
                · apply lacks_append
                  · exact hl1
                  · rfl
                · decide
              · exact hl2
            · rfl
          · exact hl3
        · rfl
      · exact lacks_ite _ _ _ _ (lacks_append _ _ _ (by decide)
          (lacks_append _ _ _ hl4 (by rfl))) (by rfl)
    · exact lacks_ite _ _ _ _ (lacks_append _ _ _ (by decide) hl5) (by rfl)

/-- Witness for C9 at three concrete entries: an origin with an author name
yields the full `@`-prefix; a seasonal origin yields the short form; a plain
entry with no origin has no `//转发自: @` marker. -/
theorem C9_witness :
    occursIn "<br><br>//转发自: @bob: " (itemDesc (normalizeEntry opts0 env0 entryC6)) = true ∧
    occursIn "//转发自: Fate Show" (itemDesc (normalizeEntry opts0 env0 entry9b)) = true ∧
    occursIn "//转发自: @" (itemDesc (normalizeEntry opts0 env0 entryGood)) = false := by
  refine ⟨?_, ?_, ?_⟩
  · exact (C9_repost_marker opts0 env0 entryC6 payloadC6 rfl rfl).1 origin9 rfl (by decide)
  · exact (C9_repost_marker opts0 env0 entry9b payload9b rfl rfl).2.1
      origin9b ⟨some "Fate Show"⟩ "Fate Show" rfl rfl rfl rfl (by decide)
  · exact (C9_repost_marker opts0 env0 entryGood payloadGood rfl rfl).2.2
      rfl (JVal.str "ok post") rfl rfl rfl rfl rfl rfl

/-! ## C10: implicit sub-payload selection -/

/-- C10: the extractors run on the nested `item` sub-payload exactly when its
title slot is truthy.  A nested `item` whose title-slot fields are all empty
or absent is ignored entirely — the entry normalizes identically to the same
entry with `item` erased, pictures included; when the sub-payload's title is
truthy, the selected payload is the sub-payload and the produced item's
title comes from it. -/
theorem C10_item_selection (p : Payload) (sub : PayloadCore) (h : p.item = some sub) :
    (getTitleC sub = "" → ∀ opts env e, e.card = .ok p →
      normalizeEntry opts env e =
        normalizeEntry opts env { e with card := .ok { p with item := none } }) ∧
    (getTitleC sub ≠ "" → selectData p = sub ∧
      (∀ opts env e, e.card = .ok p → okB (normalizeEntry opts env e) = true →
        itemTitle (normalizeEntry opts env e) = getTitleC sub)) := by
  constructor
  · intro ht opts env e he
    have hsel : selectData p = p.core := by
      have e0 : selectData p = (if getTitleC sub != "" then sub else p.core) := by
        unfold selectData
        rw [h]
      rw [e0, if_neg (by simp [ht])]
    have key0 : normalizeEntry opts env e =
        (match originResolve p with
         | .error err => .error err
         | .ok o =>
           match bodyVal opts env e (selectData p) with
           | .error err => .error err
           | .ok cv => .ok (assembleItem opts env e (selectData p) o cv)) := by
      unfold normalizeEntry
      rw [he]
    rw [key0, hsel]
    rfl
  · intro ht
    have hsel : selectData p = sub := by
      have e0 : selectData p = (if getTitleC sub != "" then sub else p.core) := by
        unfold selectData
        rw [h]
      rw [e0, if_pos (by rwa [bne_iff_ne])]
    refine ⟨hsel, ?_⟩
    intro opts env e he hok
    obtain ⟨o, cv, ho, hb, hn⟩ := normalize_ok_decomp opts env e p he hok
    rw [hn]
    simp only [itemTitle]
    rw [show (assembleItem opts env e (selectData p) o cv).title =
      getTitleC (selectData p) from rfl, hsel]

/-- Witness for C10 at concrete entries: a titleless sub-payload (with
pictures) is ignored entirely; a titled sub-payload supplies the item
title. -/
theorem C10_witness :
    normalizeEntry opts0 env0 entry10 =
      normalizeEntry opts0 env0 { entry10 with card := .ok { payload10 with item := none } } ∧
    itemTitle (normalizeEntry opts0 env0 entry10b) = getTitleC sub10b := by
  constructor
  · exact (C10_item_selection payload10 subPics rfl).1 rfl opts0 env0 entry10 rfl
  · exact ((C10_item_selection payload10b sub10b rfl).2 (by decide)).2 opts0 env0 entry10b rfl rfl

end BiliDyn
